import Mathlib

/-!
Shallow embedding of the credit-risk engine of the `capital_flow_risk`
repository (modeling/core.py, modeling/portfolio.py, stress/scenarios.py).

Python floats are modelled as exact numbers: `ℚ` where the source only uses
rational arithmetic (EAD model, portfolio aggregation, stress scenarios) and
`ℝ` where the source applies `sqrt`, `log` or the normal distribution (CAI
z-scoring, the Vasicek RWA formula).  The standard normal CDF `Φ` and its
inverse `Φ⁻¹` (scipy `norm.cdf` / `norm.ppf`) are abstracted as explicit
function parameters `cdf ppf : ℝ → ℝ`, so every theorem about the RWA
routine is a statement about the code's formula structure, uniform in the
choice of those two functions.

A Python function that can raise is embedded with result type `Except PyErr _`;
a function whose body contains no raising operation is embedded as total.
Non-finite float results (NaN/Inf, produced in the source only by the CAI
z-score division when a column has zero standard deviation) are modelled as
`none : Option ℝ`, with all arithmetic propagating `none` exactly as IEEE
arithmetic propagates NaN.
-/

/-- Errors observable from the embedded code.  `keyError` is the generic
pandas/dict lookup failure and `indexError` the failure of `iloc[-1]` on an
empty frame; both are produced by the embedded code.  `missingFieldError` and
`domainError` are modelled from the spec: the spec's error taxonomy (§7) names
dedicated `MissingFieldError` and `DomainError` classes, but the repository
defines no such classes, so these constructors exist only as possible error
values that the embedded code never produces. -/
inductive PyErr where
  | keyError (field : String)
  | indexError
  | missingFieldError (field : String)
  | domainError
deriving DecidableEq, Repr

/-- Embeds `np.clip` on scalars: `min(max(x, lo), hi)`. -/
def clipQ (x lo hi : ℚ) : ℚ := min (max x lo) hi

/-- Embeds `EADModel` from modeling/core.py (credit conversion factor, default 0.75). -/
structure EADModel where
  ccf : ℚ
deriving DecidableEq, Repr

/-- Embeds `EADModel.calculate` from modeling/core.py lines 219-234.  The source body
performs no validation of its inputs and contains no `raise`: it always
returns `drawn + ccf*(commitment - drawn)` (or with `usage_rate` in place of
`ccf` when provided), so every path of the embedding is `.ok`. -/
def EADModel.calculate (m : EADModel) (drawn_amount commitment : ℚ)
    (usage_rate : Option ℚ) : Except PyErr ℚ :=
  let undrawn := commitment - drawn_amount
  match usage_rate with
  | some u => .ok (drawn_amount + u * undrawn)
  | none => .ok (drawn_amount + m.ccf * undrawn)

/-- Embeds `EADModel.calculate_stressed` from modeling/core.py lines 236-244. -/
def EADModel.calculate_stressed (m : EADModel) (drawn_amount commitment : ℚ)
    (stress_factor : ℚ) : ℚ :=
  let ccf_stressed := min 1 (m.ccf * stress_factor)
  let undrawn := commitment - drawn_amount
  drawn_amount + ccf_stressed * undrawn

/-! ### Macro indicator table (pandas DataFrame) for the stress-scenario code

A DataFrame is a row count (the index length) together with named columns.
pandas guarantees every column has exactly `nrows` entries; the embedding
carries that invariant as a hypothesis where a theorem needs it. -/

/-- A macro DataFrame over exact rationals. -/
structure DfQ where
  nrows : ℕ
  cols : List (String × List ℚ)
deriving DecidableEq, Repr

/-- First-match lookup among named columns (what `df[c]` resolves to). -/
def lookupCol {α : Type} : List (String × α) → String → Option α
  | [], _ => none
  | p :: ps, c => if p.1 == c then some p.2 else lookupCol ps c

/-- Column lookup, `df[c]`: the first column named `c`, if any. -/
def DfQ.colGet (df : DfQ) (c : String) : Option (List ℚ) :=
  lookupCol df.cols c

/-- Embeds `c in df.columns`. -/
def DfQ.hasCol (df : DfQ) (c : String) : Bool :=
  (df.colGet c).isSome

/-- In-place column assignment `df[c] = f(df[c])`: rewrite every column named
`c` through `f`, leave the rest untouched. -/
def DfQ.colApply (df : DfQ) (c : String) (f : List ℚ → List ℚ) : DfQ :=
  ⟨df.nrows, df.cols.map (fun p => if p.1 == c then (p.1, f p.2) else p)⟩

/-- Embeds `df.iloc[-1][c]` once the frame is known to be non-empty: the last entry
of column `c`.  The `getD 0` defaults are unreachable for a well-formed
frame (column present and of length `nrows ≥ 1`). -/
def DfQ.lastVal (df : DfQ) (c : String) : Option ℚ :=
  (df.colGet c).map (fun l => (l.getLast?).getD 0)

/-- Embeds `np.linspace a b m` (evenly spaced, endpoints included; `[a]` for `m = 1`,
`[]` for `m = 0`). -/
def linspace (a b : ℚ) (m : ℕ) : List ℚ :=
  match m with
  | 0 => []
  | 1 => [a]
  | _ => (List.range m).map (fun i => a + (b - a) * i / (m - 1))

/-- The ramp-then-plateau shock path used by the scenario classes:
`np.concatenate([np.linspace(0, shock, min(periods, n)), np.full(n - ..., shock)])`. -/
def rampPath (shock : ℚ) (periods n : ℕ) : List ℚ :=
  linspace 0 shock (min periods n) ++ List.replicate (n - min periods n) shock

/-- Embeds `CustomScenario.apply` from stress/scenarios.py lines 280-290: add each
shock to its column when the column exists, skip it otherwise.  The body
contains no raising operation, so the embedding is total. -/
def CustomScenario.apply (custom_shocks : List (String × ℚ)) (df_base : DfQ) : DfQ :=
  custom_shocks.foldl
    (fun d vs => if d.hasCol vs.1 then d.colApply vs.1 (List.map (· + vs.2)) else d)
    df_base

/-- Embeds `SevereRecessionScenario.apply` from stress/scenarios.py lines 222-264. -/
def SevereRecessionScenario.apply (df_base : DfQ) : DfQ :=
  let n := df_base.nrows
  -- unemployment spikes to 10%: add a 0→5 ramp over min(12, n) periods, cap at 12
  let d1 := if df_base.hasCol "unemployment_rate" then
      df_base.colApply "unemployment_rate"
        (fun col => (col.zipWith (· + ·) (rampPath 5 12 n)).map (fun x => min x 12))
    else df_base
  -- housing crash: the column is REPLACED by the 0→-25 ramp over min(18, n) periods
  let d2 := if d1.hasCol "housing_price_growth" then
      d1.colApply "housing_price_growth" (fun _ => rampPath (-25) 18 n)
    else d1
  -- rates cut aggressively, floored at 0.1
  let d3 := if d2.hasCol "cash_rate" then
      d2.colApply "cash_rate" (List.map (fun x => max (x - 3) (1/10)))
    else d2
  let d4 := if d3.hasCol "fed_funds_rate" then
      d3.colApply "fed_funds_rate" (List.map (fun x => max (x - 4) (1/10)))
    else d3
  -- credit growth collapses
  let d5 := if d4.hasCol "credit_growth_housing" then
      d4.colApply "credit_growth_housing" (List.map (fun x => x - 20))
    else d4
  let d6 := if d5.hasCol "credit_growth" then
      d5.colApply "credit_growth" (List.map (fun x => x - 20))
    else d5
  -- spreads explode
  let d7 := if d6.hasCol "bbsw_spread" then
      d6.colApply "bbsw_spread" (List.map (fun x => x + 2))
    else d6
  let d8 := if d7.hasCol "baa_spread" then
      d7.colApply "baa_spread" (List.map (fun x => x + 3))
    else d7
  d8

/-! ### Vasicek RWA routine (modeling/core.py lines 328-364)

`cdf` and `ppf` stand for scipy's `norm.cdf` and `norm.ppf` (standard normal
CDF and quantile); the embedding is uniform in them. -/

/-- Embeds `np.clip` on real scalars. -/
noncomputable def clipR (x lo hi : ℝ) : ℝ := min (max x lo) hi

/-- Embeds `calculate_rwa_simple` from modeling/core.py lines 328-364, translated
line by line.  Note the implementation multiplies `Φ⁻¹(PD)` by `sqrt(1 - R)`
and `Φ⁻¹(0.999)` by `sqrt(R)` (lines 347-351). -/
noncomputable def calculate_rwa_simple (cdf ppf : ℝ → ℝ)
    (ead pd lgd correlation : ℝ) : ℝ :=
  let pd_c := clipR pd (1/10000) (9999/10000)
  let phi_inv_pd := ppf pd_c
  let phi_inv_999 := ppf (999/1000)
  let sqrt_r := Real.sqrt correlation
  let sqrt_1_r := Real.sqrt (1 - correlation)
  let k := lgd * cdf (sqrt_1_r * phi_inv_pd + sqrt_r * phi_inv_999) - pd_c * lgd
  let b := (11852/100000 - 5478/100000 * Real.log pd_c) ^ 2
  let maturity_adj := (1 + (5/2 - 5/2) * b) / (1 - 3/2 * b)
  let k_adj := k * maturity_adj
  ead * k_adj * (25/2)

/-- The RWA formula as the claim (and the code's own comment at
modeling/core.py line 340) states it: written from the spec's words
`K = LGD*Φ(sqrt(1/(1-R))*Φ⁻¹(PD) + sqrt(R/(1-R))*Φ⁻¹(0.999)) - PD*LGD`,
`b = (0.11852 - 0.05478 ln PD)²`, `maturity_adj = 1/(1-1.5b)`,
`RWA = EAD*K*maturity_adj*12.5`, with PD clipped to `[1e-4, 1-1e-4]` first. -/
noncomputable def rwa_documented (cdf ppf : ℝ → ℝ)
    (ead pd lgd correlation : ℝ) : ℝ :=
  let pd_c := clipR pd (1/10000) (9999/10000)
  let k := lgd * cdf (Real.sqrt (1 / (1 - correlation)) * ppf pd_c +
      Real.sqrt (correlation / (1 - correlation)) * ppf (999/1000)) - pd_c * lgd
  let b := (11852/100000 - 5478/100000 * Real.log pd_c) ^ 2
  let maturity_adj := 1 / (1 - 3/2 * b)
  ead * k * maturity_adj * (25/2)

/-! ### Credit Availability Index (modeling/core.py lines 13-60)

The z-score step divides by a sample standard deviation, so this part lives
in `ℝ`.  Entries are `Option ℝ`: `none` stands for a non-finite float
(NaN/Inf); all operations propagate `none` exactly as IEEE arithmetic
propagates NaN. -/

/-- A macro DataFrame over reals, as consumed by the CAI computation; only
the per-column view is needed there (no use of `len(df)` or `iloc`). -/
def DfR := List (String × List ℝ)

/-- Column lookup on the real-valued frame. -/
def DfR.colGet (df : DfR) (c : String) : Option (List ℝ) :=
  lookupCol df c

/-- Embeds `df[c]` as the source uses it: raises the generic pandas `KeyError` when
the column is absent. -/
noncomputable def DfR.getCol (df : DfR) (c : String) : Except PyErr (List ℝ) :=
  match df.colGet c with
  | some l => .ok l
  | none => .error (.keyError c)

/-- Embeds `Series.mean()`. -/
noncomputable def meanR (l : List ℝ) : ℝ := l.sum / l.length

/-- Embeds `Series.std()` (pandas default `ddof = 1`): `none` (NaN) for fewer than
two observations, else the sample standard deviation. -/
noncomputable def stdR (l : List ℝ) : Option ℝ :=
  if l.length ≤ 1 then none
  else some (Real.sqrt ((l.map (fun x => (x - meanR l) ^ 2)).sum / (l.length - 1)))

/-- Float division of a finite numerator by a possibly-NaN denominator:
division by zero or by NaN yields a non-finite result (`none`). -/
noncomputable def odiv (a : ℝ) (s : Option ℝ) : Option ℝ :=
  match s with
  | none => none
  | some b => if b = 0 then none else some (a / b)

/-- Embeds `(col - col.mean()) / col.std()`. -/
noncomputable def zscoreR (l : List ℝ) : List (Option ℝ) :=
  l.map (fun x => odiv (x - meanR l) (stdR l))

/-- Float addition with NaN propagation. -/
def addOpt (a b : Option ℝ) : Option ℝ :=
  match a, b with
  | some x, some y => some (x + y)
  | _, _ => none

/-- Scalar-by-series multiplication with NaN propagation. -/
noncomputable def smulOpt (c : ℝ) (l : List (Option ℝ)) : List (Option ℝ) :=
  l.map (Option.map (fun x => c * x))

/-- Embeds `Series.clip(lo, hi)`: NaN entries stay NaN. -/
noncomputable def clipOpt (lo hi : ℝ) (o : Option ℝ) : Option ℝ :=
  o.map (fun x => min (max x lo) hi)

/-- The CAI weight dictionary (modeling/core.py lines 25-34). -/
structure CAIWeights where
  rate : ℝ
  credit_growth : ℝ
  unemployment : ℝ
  gdp_growth : ℝ

/-- The default CAI weights. -/
noncomputable def defaultCAIWeights : CAIWeights := ⟨-(3/10), 4/10, -(2/10), 1/10⟩

/-- Embeds `CreditAvailabilityIndex.calculate` from modeling/core.py lines 36-60:
z-score the four macro columns, combine with the weights, rescale to
`50 + 10*raw` and clip to `[0, 100]`.  Each `df[col]` lookup raises the
generic `KeyError` when the column is absent, in source order (rate, credit,
unemployment, GDP). -/
noncomputable def CreditAvailabilityIndex.calculate (w : CAIWeights) (df : DfR)
    (rate_col credit_col unemp_col gdp_col : String) :
    Except PyErr (List (Option ℝ)) :=
  match df.getCol rate_col with
  | .error e => .error e
  | .ok rate =>
    let rate_z := zscoreR rate
    match df.getCol credit_col with
    | .error e => .error e
    | .ok credit =>
      let credit_z := zscoreR credit
      match df.getCol unemp_col with
      | .error e => .error e
      | .ok unemp =>
        let unemp_z := zscoreR unemp
        match df.getCol gdp_col with
        | .error e => .error e
        | .ok gdp =>
          let gdp_z := zscoreR gdp
          let cai_raw :=
            List.zipWith addOpt
              (List.zipWith addOpt
                (List.zipWith addOpt (smulOpt w.rate rate_z)
                  (smulOpt w.credit_growth credit_z))
                (smulOpt w.unemployment unemp_z))
              (smulOpt w.gdp_growth gdp_z)
          let cai := (cai_raw.map (Option.map (fun x => 50 + 10 * x))).map
            (clipOpt 0 100)
          .ok cai

/-! ### Portfolio aggregator (modeling/portfolio.py) -/

/-- One row of `Portfolio.exposures` as built by `add_segment`
(modeling/portfolio.py lines 23-48). -/
structure Segment where
  segment : String
  segment_type : String
  n_loans : ℚ
  avg_exposure : ℚ
  total_ead : ℚ
  avg_pd : ℚ
  avg_lgd : ℚ
  correlation : ℚ
deriving DecidableEq, Repr

/-- Embeds `Portfolio.add_segment`: append one row, with
`total_ead = n_loans * avg_exposure` fixed at this point. -/
def Portfolio.add_segment (exposures : List Segment) (segment_name : String)
    (n_loans avg_exposure avg_pd avg_lgd correlation : ℚ)
    (segment_type : String) : List Segment :=
  exposures ++ [⟨segment_name, segment_type, n_loans, avg_exposure,
    n_loans * avg_exposure, avg_pd, avg_lgd, correlation⟩]

/-- The arguments of one `add_segment` call. -/
structure SegmentArgs where
  segment_name : String
  n_loans : ℚ
  avg_exposure : ℚ
  avg_pd : ℚ
  avg_lgd : ℚ
  correlation : ℚ
  segment_type : String
deriving DecidableEq, Repr

/-- A portfolio built by a sequence of `add_segment` calls starting from the
empty exposures table (the only way the source ever fills `exposures`). -/
def Portfolio.build (args : List SegmentArgs) : List Segment :=
  args.foldl (fun p a => Portfolio.add_segment p a.segment_name a.n_loans
    a.avg_exposure a.avg_pd a.avg_lgd a.correlation a.segment_type) []

/-- A segment row after `calculate_ecl` has attached the `ecl_12m` and
`ecl_lifetime` columns. -/
structure SegmentEcl where
  base : Segment
  ecl_12m : ℚ
  ecl_lifetime : ℚ
deriving DecidableEq, Repr

/-- Embeds `Portfolio.calculate_ecl` from modeling/portfolio.py lines 50-63:
`ecl_12m = avg_pd * avg_lgd * total_ead`, `ecl_lifetime = ecl_12m * 5`,
computed afresh for every row (assignment overwrites, it never accumulates). -/
def Portfolio.calculate_ecl (exposures : List Segment) : List SegmentEcl :=
  exposures.map (fun s =>
    ⟨s, s.avg_pd * s.avg_lgd * s.total_ead,
      s.avg_pd * s.avg_lgd * s.total_ead * 5⟩)

/-- A row of the stressed table produced by `stress_portfolio`. -/
structure SegmentStressed where
  base : Segment
  avg_pd_stressed : ℚ
  avg_lgd_stressed : ℚ
  total_ead_stressed : ℚ
  ecl_stressed : ℚ
  rwa_stressed : ℝ

/-- Embeds `Portfolio.stress_portfolio` from modeling/portfolio.py lines 105-139:
multiply PD, LGD (capped at 1.0 via `np.minimum`) and EAD by the shocks, then
recompute ECL and RWA on the stressed values. -/
noncomputable def Portfolio.stress_portfolio (cdf ppf : ℝ → ℝ)
    (exposures : List Segment) (pd_shock lgd_shock ead_shock : ℚ) :
    List SegmentStressed :=
  exposures.map (fun s =>
    let pds := s.avg_pd * pd_shock
    let lgds := min (s.avg_lgd * lgd_shock) 1
    let eads := s.total_ead * ead_shock
    ⟨s, pds, lgds, eads, pds * lgds * eads,
      calculate_rwa_simple cdf ppf (eads : ℝ) (pds : ℝ) (lgds : ℝ)
        (s.correlation : ℝ)⟩)

/-! ### Portfolio-level scenario propagation (stress/scenarios.py lines 293-342) -/

/-- Embeds `apply_scenario_to_portfolio` from stress/scenarios.py lines 293-342.
The scenario argument enters only through its `apply` method (Python duck
typing), embedded as the function `applyScn`.  `latest = df_stressed.iloc[-1]`
raises `IndexError` on an empty frame; `macro_df.iloc[-1]['unemployment_rate']`
raises `KeyError` when the baseline lacks that column; the baseline housing
value is read with `.get('housing_price_growth', 0)` (default 0, no error).
The unused `PDModel()` instantiation of line 312 has no effect and is not
modelled. -/
noncomputable def apply_scenario_to_portfolio (cdf ppf : ℝ → ℝ)
    (exposures : List Segment) (applyScn : DfQ → DfQ) (macro_df : DfQ) :
    Except PyErr (List SegmentStressed × DfQ) :=
  let df_stressed := applyScn macro_df
  if df_stressed.nrows = 0 then .error .indexError
  else
    -- PD impact: 30% PD increase per 2pp unemployment
    (match df_stressed.lastVal "unemployment_rate" with
      | some su =>
        match macro_df.lastVal "unemployment_rate" with
        | some bu => .ok (1 + (su - bu) / 2 * (3/10))
        | none => .error (.keyError "unemployment_rate")
      | none => .ok 1 : Except PyErr ℚ).bind (fun pd_multiplier =>
    -- LGD impact: 10% LGD increase per 10% house price fall, clipped to [0.8, 1.5]
    let lgd_multiplier : ℚ :=
      match df_stressed.lastVal "housing_price_growth" with
      | some sh =>
        clipQ (1 - (sh - ((macro_df.lastVal "housing_price_growth").getD 0)) / 10
          * (1/10)) (4/5) (3/2)
      | none => 1
    -- EAD impact: fixed 5% increase in utilization under stress
    let ead_multiplier : ℚ := 21/20
    .ok (Portfolio.stress_portfolio cdf ppf exposures pd_multiplier
      lgd_multiplier ead_multiplier, df_stressed))

/-- The PD multiplier exactly as the claim states it: from the latest period
of the baseline and stressed series, `1 + (Δunemployment/2) * 0.3`, falling
back to `1.0` when the field is absent.  Written from the spec's words, to be
compared with the code path above. -/
def pdMultiplierSpec (macro_df df_stressed : DfQ) : ℚ :=
  match df_stressed.lastVal "unemployment_rate",
      macro_df.lastVal "unemployment_rate" with
  | some su, some bu => 1 + (su - bu) / 2 * (3/10)
  | _, _ => 1

/-- The LGD multiplier exactly as the claim states it:
`clip(1 - (Δhousing/10) * 0.1, 0.8, 1.5)`, falling back to `1.0` when the
field is absent.  Written from the spec's words. -/
def lgdMultiplierSpec (macro_df df_stressed : DfQ) : ℚ :=
  match df_stressed.lastVal "housing_price_growth",
      macro_df.lastVal "housing_price_growth" with
  | some sh, some bh => clipQ (1 - (sh - bh) / 10 * (1/10)) (4/5) (3/2)
  | _, _ => 1

/-! ### Helper lemmas -/

/-- Segments built through `add_segment` always carry
`total_ead = n_loans * avg_exposure`. -/
lemma build_total_ead_aux (args : List SegmentArgs) (p : List Segment)
    (hp : ∀ s ∈ p, s.total_ead = s.n_loans * s.avg_exposure) :
    ∀ s ∈ args.foldl (fun q a => Portfolio.add_segment q a.segment_name
      a.n_loans a.avg_exposure a.avg_pd a.avg_lgd a.correlation a.segment_type) p,
      s.total_ead = s.n_loans * s.avg_exposure := by
  induction args generalizing p with
  | nil => simpa using hp
  | cons a as ih =>
    intro s hs
    rw [List.foldl_cons] at hs
    refine ih _ ?_ s hs
    intro t ht
    rcases List.mem_append.mp ht with h1 | h2
    · exact hp t h1
    · rw [List.mem_singleton] at h2
      subst h2
      rfl

/-- Monotonicity of a single stressed ECL term. -/
lemma ecl_term_mono (pd lgd ead ps ls es : ℚ) (hpd : 0 ≤ pd) (hl0 : 0 ≤ lgd)
    (hl1 : lgd ≤ 1) (hed : 0 ≤ ead) (h1 : 1 ≤ ps) (h2 : 1 ≤ ls) (h3 : 1 ≤ es) :
    pd * lgd * ead ≤ pd * ps * min (lgd * ls) 1 * (ead * es) := by
  have hpp : pd ≤ pd * ps := le_mul_of_one_le_right hpd h1
  have hll : lgd ≤ min (lgd * ls) 1 := le_min (le_mul_of_one_le_right hl0 h2) hl1
  have hee : ead ≤ ead * es := le_mul_of_one_le_right hed h3
  have h4 : 0 ≤ pd * ps := le_trans hpd hpp
  have h5 : 0 ≤ min (lgd * ls) 1 := le_trans hl0 hll
  calc pd * lgd * ead ≤ pd * ps * min (lgd * ls) 1 * ead :=
        mul_le_mul_of_nonneg_right (mul_le_mul hpp hll hl0 h4) hed
    _ ≤ pd * ps * min (lgd * ls) 1 * (ead * es) :=
        mul_le_mul_of_nonneg_left hee (mul_nonneg h4 h5)

/-! ### C2 — EAD precondition -/

/-- C2 counterexample.  The claim says `EADModel.calculate` with
drawn = 1,200,000 > commitment = 1,000,000 raises a `DomainError` before
computing.  In fact the source performs no check at all: with the default
CCF of 0.75 it returns 1,050,000 (drawn plus 0.75 times the negative
undrawn amount) and raises nothing. -/
theorem C2_counterexample :
    EADModel.calculate ⟨3/4⟩ 1200000 1000000 none = Except.ok 1050000 ∧
    ∀ e, EADModel.calculate ⟨3/4⟩ 1200000 1000000 none ≠ Except.error e := by
  have h : EADModel.calculate ⟨3/4⟩ 1200000 1000000 none = Except.ok 1050000 := by
    unfold EADModel.calculate
    norm_num
  exact ⟨h, fun e he => by rw [h] at he; exact Except.noConfusion he⟩

/-- C2 (amended): for every CCF, drawn amount and commitment with
drawn > commitment, `EADModel.calculate` performs no precondition check: it
silently computes `EAD = drawn + ccf * (commitment - drawn)` from the
negative undrawn amount and raises no error. -/
theorem C2_silent_negative_undrawn (ccf drawn commitment : ℚ)
    (h : commitment < drawn) :
    EADModel.calculate ⟨ccf⟩ drawn commitment none =
      Except.ok (drawn + ccf * (commitment - drawn)) ∧
    commitment - drawn < 0 :=
  ⟨rfl, by linarith⟩

/-- Witness for C2: the amended statement at the claim's own numbers. -/
theorem C2_silent_negative_undrawn_witness :
    EADModel.calculate ⟨3/4⟩ 1200000 1000000 none =
      Except.ok (1200000 + 3/4 * (1000000 - 1200000)) ∧
    (1000000 - 1200000 : ℚ) < 0 :=
  C2_silent_negative_undrawn (3/4) 1200000 1000000 (by norm_num)

/-! ### C7 — custom scenario no-op -/

/-- C7: applying a `CustomScenario` whose every shock references a field
absent from the series (in particular, one with an empty shock mapping)
returns the input series unchanged; the code path raises no error (the
embedding is a total function). -/
theorem C7_custom_scenario_noop (df : DfQ) :
    ∀ custom_shocks : List (String × ℚ),
      (∀ p ∈ custom_shocks, df.hasCol p.1 = false) →
      CustomScenario.apply custom_shocks df = df := by
  intro custom_shocks
  induction custom_shocks with
  | nil => intro _; rfl
  | cons p ps ih =>
    intro h
    have hp : df.hasCol p.1 = false := h p (List.mem_cons_self p ps)
    have hps : ∀ q ∈ ps, df.hasCol q.1 = false :=
      fun q hq => h q (List.mem_cons_of_mem p hq)
    have hstep : CustomScenario.apply (p :: ps) df = CustomScenario.apply ps df := by
      simp only [CustomScenario.apply, List.foldl_cons, hp]
      simp
    rw [hstep]
    exact ih hps

/-- Witness for C7: a concrete one-column series and a shock on an absent
field. -/
theorem C7_custom_scenario_noop_witness :
    CustomScenario.apply [("oil_price", 5)] ⟨2, [("cash_rate", [1, 2])]⟩ =
      ⟨2, [("cash_rate", [1, 2])]⟩ :=
  C7_custom_scenario_noop ⟨2, [("cash_rate", [1, 2])]⟩ [("oil_price", 5)]
    (by decide)

/-! ### C5 — portfolio ECL -/

/-- C5: after `calculate_ecl`, every segment row of a portfolio built through
`add_segment` satisfies `ecl_12m = avg_pd * avg_lgd * total_ead` with
`total_ead = n_loans * avg_exposure` fixed at `add_segment` time, and
`ecl_lifetime = ecl_12m * 5`; in particular the single segment with
n_loans = 1000, avg_exposure = 500000, avg_pd = 0.01, avg_lgd = 0.30 gets
`ecl_12m = 1,500,000` exactly. -/
theorem C5_calculate_ecl :
    (∀ args : List SegmentArgs,
      ∀ r ∈ Portfolio.calculate_ecl (Portfolio.build args),
        r.ecl_12m = r.base.avg_pd * r.base.avg_lgd * r.base.total_ead ∧
        r.base.total_ead = r.base.n_loans * r.base.avg_exposure ∧
        r.ecl_lifetime = r.ecl_12m * 5) ∧
    (Portfolio.calculate_ecl (Portfolio.build
        [⟨"Test Segment", 1000, 500000, 1/100, 3/10, 3/20, "retail"⟩])).map
      (fun r => r.ecl_12m) = [1500000] := by
  constructor
  · intro args r hr
    rcases List.mem_map.mp hr with ⟨s, hs, rfl⟩
    refine ⟨rfl, ?_, rfl⟩
    exact build_total_ead_aux args [] (by simp) s hs
  · norm_num [Portfolio.build, Portfolio.add_segment, Portfolio.calculate_ecl]

/-- Witness for C5: the universal part instantiated at the claim's concrete
single-segment portfolio. -/
theorem C5_calculate_ecl_witness :
    (⟨⟨"Test Segment", "retail", 1000, 500000, 500000000, 1/100, 3/10, 3/20⟩,
        1500000, 7500000⟩ : SegmentEcl).ecl_12m =
      (1/100 : ℚ) * (3/10) * 500000000 ∧
    (500000000 : ℚ) = 1000 * 500000 ∧
    (7500000 : ℚ) = 1500000 * 5 := by
  have h := C5_calculate_ecl.1
    [⟨"Test Segment", 1000, 500000, 1/100, 3/10, 3/20, "retail"⟩]
    ⟨⟨"Test Segment", "retail", 1000, 500000, 500000000, 1/100, 3/10, 3/20⟩,
      1500000, 7500000⟩
    (by norm_num [Portfolio.build, Portfolio.add_segment, Portfolio.calculate_ecl])
  exact ⟨by norm_num, by norm_num [h.2.1], by norm_num⟩

/-! ### C9 — stress ordering -/

/-- C9: for segments with `avg_pd ≥ 0`, `avg_lgd ∈ [0,1]`, `total_ead ≥ 0`
and shocks `pd_shock, lgd_shock, ead_shock ≥ 1`, every segment's stressed ECL
from `stress_portfolio` (with the LGD cap at 1.0) dominates its baseline
`ecl_12m` from `calculate_ecl`, and hence so do the totals. -/
theorem C9_stress_ordering (cdf ppf : ℝ → ℝ) (exposures : List Segment)
    (pd_shock lgd_shock ead_shock : ℚ)
    (hseg : ∀ s ∈ exposures,
      0 ≤ s.avg_pd ∧ 0 ≤ s.avg_lgd ∧ s.avg_lgd ≤ 1 ∧ 0 ≤ s.total_ead)
    (hp : 1 ≤ pd_shock) (hl : 1 ≤ lgd_shock) (he : 1 ≤ ead_shock) :
    (∀ pr ∈ List.zip (Portfolio.calculate_ecl exposures)
        (Portfolio.stress_portfolio cdf ppf exposures pd_shock lgd_shock ead_shock),
      pr.1.ecl_12m ≤ pr.2.ecl_stressed) ∧
    ((Portfolio.calculate_ecl exposures).map (fun r => r.ecl_12m)).sum ≤
      ((Portfolio.stress_portfolio cdf ppf exposures pd_shock lgd_shock
        ead_shock).map (fun r => r.ecl_stressed)).sum := by
  constructor
  · intro pr hpr
    rw [Portfolio.calculate_ecl, Portfolio.stress_portfolio, List.zip_map'] at hpr
    rcases List.mem_map.mp hpr with ⟨s, hs, rfl⟩
    obtain ⟨h1, h2, h3, h4⟩ := hseg s hs
    exact ecl_term_mono s.avg_pd s.avg_lgd s.total_ead pd_shock lgd_shock
      ead_shock h1 h2 h3 h4 hp hl he
  · rw [Portfolio.calculate_ecl, Portfolio.stress_portfolio, List.map_map,
      List.map_map]
    apply List.sum_le_sum
    intro s hs
    obtain ⟨h1, h2, h3, h4⟩ := hseg s hs
    exact ecl_term_mono s.avg_pd s.avg_lgd s.total_ead pd_shock lgd_shock
      ead_shock h1 h2 h3 h4 hp hl he

/-- Witness for C9: one concrete segment and the severe-recession style
shocks (PD +50%, LGD +20%, EAD +10%). -/
theorem C9_stress_ordering_witness :
    (∀ pr ∈ List.zip
        (Portfolio.calculate_ecl
          [⟨"M", "retail", 1000, 500000, 500000000, 1/100, 3/10, 3/20⟩])
        (Portfolio.stress_portfolio id id
          [⟨"M", "retail", 1000, 500000, 500000000, 1/100, 3/10, 3/20⟩]
          (3/2) (6/5) (11/10)),
      pr.1.ecl_12m ≤ pr.2.ecl_stressed) ∧
    ((Portfolio.calculate_ecl
        [⟨"M", "retail", 1000, 500000, 500000000, 1/100, 3/10, 3/20⟩]).map
      (fun r => r.ecl_12m)).sum ≤
      ((Portfolio.stress_portfolio id id
        [⟨"M", "retail", 1000, 500000, 500000000, 1/100, 3/10, 3/20⟩]
        (3/2) (6/5) (11/10)).map (fun r => r.ecl_stressed)).sum :=
  C9_stress_ordering id id
    [⟨"M", "retail", 1000, 500000, 500000000, 1/100, 3/10, 3/20⟩]
    (3/2) (6/5) (11/10) (by norm_num) (by norm_num) (by norm_num) (by norm_num)

/-! ### Column-update lemmas for the scenario engine -/

/-- How `colGet` sees a column assignment. -/
lemma colGet_colApply (df : DfQ) (c : String) (f : List ℚ → List ℚ) (x : String) :
    (df.colApply c f).colGet x =
      (df.colGet x).map (fun l => if x = c then f l else l) := by
  rcases df with ⟨n, cols⟩
  unfold DfQ.colApply DfQ.colGet
  simp only
  induction cols with
  | nil => rfl
  | cons p ps ih =>
    simp only [List.map_cons]
    by_cases hc : p.1 = c
    · subst hc
      by_cases hx : p.1 = x
      · subst hx
        simp [lookupCol]
      · simpa [lookupCol, hx] using ih
    · by_cases hx : p.1 = x
      · subst hx
        simp [lookupCol, hc]
      · simpa [lookupCol, hc, hx] using ih

/-- A column assignment never changes which columns exist. -/
lemma hasCol_colApply (df : DfQ) (c : String) (f : List ℚ → List ℚ) (x : String) :
    (df.colApply c f).hasCol x = df.hasCol x := by
  unfold DfQ.hasCol
  rw [colGet_colApply]
  cases df.colGet x <;> rfl

/-- A column assignment keeps the row count. -/
lemma nrows_colApply (df : DfQ) (c : String) (f : List ℚ → List ℚ) :
    (df.colApply c f).nrows = df.nrows := rfl

/-- A guarded column assignment to a column other than `x` does not change
what `colGet x` returns. -/
lemma colGet_guarded_step (d : DfQ) (P : Prop) [Decidable P] (c : String)
    (f : List ℚ → List ℚ) (x : String) (hx : x ≠ c) :
    (if P then d.colApply c f else d).colGet x = d.colGet x := by
  split
  · rw [colGet_colApply]
    simp [hx]
  · rfl

/-- A guarded column assignment changes no column presence. -/
lemma hasCol_guarded_step (d : DfQ) (P : Prop) [Decidable P] (c : String)
    (f : List ℚ → List ℚ) (x : String) :
    (if P then d.colApply c f else d).hasCol x = d.hasCol x := by
  split
  · rw [hasCol_colApply]
  · rfl

/-- A guarded column assignment keeps the row count. -/
lemma nrows_guarded_step (d : DfQ) (P : Prop) [Decidable P] (c : String)
    (f : List ℚ → List ℚ) :
    (if P then d.colApply c f else d).nrows = d.nrows := by
  split <;> rfl

/-- What `SevereRecessionScenario.apply` leaves in the housing column: every
existing `housing_price_growth` column is replaced outright by the fixed
0 → -25 ramp over `min 18 n` periods (then constant -25), regardless of the
column's baseline values. -/
lemma housing_step_colGet (d : DfQ) (n : ℕ) :
    (if d.hasCol "housing_price_growth" = true then
        d.colApply "housing_price_growth" (fun _ => rampPath (-25) 18 n)
      else d).colGet "housing_price_growth" =
      (d.colGet "housing_price_growth").map (fun _ => rampPath (-25) 18 n) := by
  split
  · rename_i h
    rw [colGet_colApply]
    obtain ⟨l, hl⟩ := Option.isSome_iff_exists.mp (by unfold DfQ.hasCol at h; exact h)
    rw [hl]
    simp
  · rename_i h
    have hnone : d.colGet "housing_price_growth" = none := by
      rcases hc : d.colGet "housing_price_growth" with _ | l
      · rfl
      · exact absurd (by unfold DfQ.hasCol; rw [hc]; rfl) h
    rw [hnone]
    rfl

/-- Restated for the whole scenario transform. -/
lemma severe_housing_col (df : DfQ) :
    (SevereRecessionScenario.apply df).colGet "housing_price_growth" =
      (df.colGet "housing_price_growth").map
        (fun _ => rampPath (-25) 18 df.nrows) := by
  simp only [SevereRecessionScenario.apply]
  rw [colGet_guarded_step _ _ "baa_spread" _ "housing_price_growth" (by decide),
    colGet_guarded_step _ _ "bbsw_spread" _ "housing_price_growth" (by decide),
    colGet_guarded_step _ _ "credit_growth" _ "housing_price_growth" (by decide),
    colGet_guarded_step _ _ "credit_growth_housing" _ "housing_price_growth"
      (by decide),
    colGet_guarded_step _ _ "fed_funds_rate" _ "housing_price_growth" (by decide),
    colGet_guarded_step _ _ "cash_rate" _ "housing_price_growth" (by decide),
    housing_step_colGet,
    colGet_guarded_step _ _ "unemployment_rate" _ "housing_price_growth"
      (by decide)]

/-- C10: for every macro series containing a `housing_price_growth` column,
`SevereRecessionScenario.apply` sets that column to the fixed ramp path
(linear from 0 to -25 over `min 18 n` periods, then constant -25),
independent of the baseline values: two series with the same length both get
exactly the same stressed housing column. -/
theorem C10_severe_housing_path :
    (∀ df : DfQ, df.hasCol "housing_price_growth" = true →
      (SevereRecessionScenario.apply df).colGet "housing_price_growth" =
        some (rampPath (-25) 18 df.nrows)) ∧
    (∀ df1 df2 : DfQ, df1.nrows = df2.nrows →
      df1.hasCol "housing_price_growth" = true →
      df2.hasCol "housing_price_growth" = true →
      (SevereRecessionScenario.apply df1).colGet "housing_price_growth" =
        (SevereRecessionScenario.apply df2).colGet "housing_price_growth") := by
  have key : ∀ df : DfQ, df.hasCol "housing_price_growth" = true →
      (SevereRecessionScenario.apply df).colGet "housing_price_growth" =
        some (rampPath (-25) 18 df.nrows) := by
    intro df h
    rw [severe_housing_col]
    obtain ⟨l, hl⟩ := Option.isSome_iff_exists.mp (by unfold DfQ.hasCol at h; exact h)
    rw [hl]
    rfl
  refine ⟨key, fun df1 df2 hn h1 h2 => ?_⟩
  rw [key df1 h1, key df2 h2, hn]

/-- Witness for C10: a two-row series with a housing column; the ramp over
`min 18 2 = 2` periods is `[0, -25]`. -/
theorem C10_severe_housing_path_witness :
    (SevereRecessionScenario.apply
        ⟨2, [("housing_price_growth", [7, 9])]⟩).colGet "housing_price_growth" =
      some (rampPath (-25) 18 2) ∧
    (SevereRecessionScenario.apply
        ⟨2, [("housing_price_growth", [7, 9])]⟩).colGet "housing_price_growth" =
      (SevereRecessionScenario.apply
        ⟨2, [("housing_price_growth", [4, 4])]⟩).colGet "housing_price_growth" :=
  ⟨C10_severe_housing_path.1 ⟨2, [("housing_price_growth", [7, 9])]⟩ (by decide),
    C10_severe_housing_path.2 ⟨2, [("housing_price_growth", [7, 9])]⟩
      ⟨2, [("housing_price_growth", [4, 4])]⟩ rfl (by decide) (by decide)⟩

/-- C8: `apply_scenario_to_portfolio` computes, from the latest period of the
baseline and stressed series, exactly the multipliers
`pd = 1 + (Δunemployment/2)*0.3`,
`lgd = clip(1 - (Δhousing/10)*0.1, 0.8, 1.5)` and `ead = 1.05`
(the PD and LGD multipliers falling back to 1.0 when their field is absent),
and passes the three multipliers to `Portfolio.stress_portfolio`.  The
hypotheses state that the stressed frame is non-empty (otherwise `iloc[-1]`
raises), and that a field present in the stressed frame is present in the
baseline (true of every scenario in the repository, since none adds a column;
it rules out the `KeyError` path and makes the baseline housing default-0
read coincide with the claim's Δhousing). -/
theorem C8_scenario_multipliers (cdf ppf : ℝ → ℝ) (exposures : List Segment)
    (applyScn : DfQ → DfQ) (macro_df : DfQ)
    (hrows : (applyScn macro_df).nrows ≠ 0)
    (hu : ((applyScn macro_df).lastVal "unemployment_rate").isSome = true →
      (macro_df.lastVal "unemployment_rate").isSome = true)
    (hh : ((applyScn macro_df).lastVal "housing_price_growth").isSome = true →
      (macro_df.lastVal "housing_price_growth").isSome = true) :
    apply_scenario_to_portfolio cdf ppf exposures applyScn macro_df =
      Except.ok (Portfolio.stress_portfolio cdf ppf exposures
        (pdMultiplierSpec macro_df (applyScn macro_df))
        (lgdMultiplierSpec macro_df (applyScn macro_df)) (21/20),
        applyScn macro_df) := by
  unfold apply_scenario_to_portfolio pdMultiplierSpec lgdMultiplierSpec
  rw [if_neg hrows]
  rcases hsu : (applyScn macro_df).lastVal "unemployment_rate" with _ | su
  · rcases hsh : (applyScn macro_df).lastVal "housing_price_growth" with _ | sh
    · simp [hsu, hsh, Except.bind]
    · obtain ⟨bh, hbh⟩ := Option.isSome_iff_exists.mp (hh (by rw [hsh]; rfl))
      simp [hsu, hsh, hbh, Except.bind]
  · obtain ⟨bu, hbu⟩ := Option.isSome_iff_exists.mp (hu (by rw [hsu]; rfl))
    rcases hsh : (applyScn macro_df).lastVal "housing_price_growth" with _ | sh
    · simp [hsu, hsh, hbu, Except.bind]
    · obtain ⟨bh, hbh⟩ := Option.isSome_iff_exists.mp (hh (by rw [hsh]; rfl))
      simp [hsu, hsh, hbu, hbh, Except.bind]

/-- Witness for C8: the identity transform on a one-row frame holding both
fields. -/
theorem C8_scenario_multipliers_witness :
    apply_scenario_to_portfolio id id
      [⟨"M", "retail", 1000, 500000, 500000000, 1/100, 3/10, 3/20⟩]
      (fun d => d) ⟨1, [("unemployment_rate", [4]), ("housing_price_growth", [5])]⟩ =
      Except.ok (Portfolio.stress_portfolio id id
        [⟨"M", "retail", 1000, 500000, 500000000, 1/100, 3/10, 3/20⟩]
        (pdMultiplierSpec
          ⟨1, [("unemployment_rate", [4]), ("housing_price_growth", [5])]⟩
          ((fun d => d) ⟨1, [("unemployment_rate", [4]), ("housing_price_growth", [5])]⟩))
        (lgdMultiplierSpec
          ⟨1, [("unemployment_rate", [4]), ("housing_price_growth", [5])]⟩
          ((fun d => d) ⟨1, [("unemployment_rate", [4]), ("housing_price_growth", [5])]⟩))
        (21/20),
        (fun d => d) ⟨1, [("unemployment_rate", [4]), ("housing_price_growth", [5])]⟩) :=
  C8_scenario_multipliers id id
    [⟨"M", "retail", 1000, 500000, 500000000, 1/100, 3/10, 3/20⟩]
    (fun d => d) ⟨1, [("unemployment_rate", [4]), ("housing_price_growth", [5])]⟩
    (by decide) (by decide) (by decide)

/-! ### CAI lemmas -/

/-- NaN propagation through addition, left. -/
lemma addOpt_none_left (b : Option ℝ) : addOpt none b = none := by
  cases b <;> rfl

/-- NaN propagation through addition, right. -/
lemma addOpt_none_right (a : Option ℝ) : addOpt a none = none := by
  cases a <;> rfl

/-- The z-score of a constant column is NaN at every entry: its standard
deviation is 0 (or NaN for fewer than two rows) and the division degenerates. -/
lemma zscore_const (l : List ℝ) (v : ℝ) (hv : ∀ x ∈ l, x = v) :
    zscoreR l = List.replicate l.length none := by
  rcases le_or_lt l.length 1 with h1 | h2
  · have hstd : stdR l = none := by unfold stdR; rw [if_pos h1]
    unfold zscoreR
    rw [hstd]
    rw [List.map_congr_left (fun x _ => rfl :
      ∀ x ∈ l, odiv (x - meanR l) none = (fun _ => (none : Option ℝ)) x)]
    exact List.map_const' l none
  · have hn : (l.length : ℝ) ≠ 0 := Nat.cast_ne_zero.mpr (by omega)
    have hrep : l = List.replicate l.length v := List.eq_replicate_of_mem hv
    have hmean : meanR l = v := by
      unfold meanR
      conv_lhs => rw [hrep]
      rw [List.sum_replicate, List.length_replicate, nsmul_eq_mul]
      exact mul_div_cancel_left₀ v hn
    have hsq : ∀ y ∈ l.map (fun x => (x - meanR l) ^ 2), y = 0 := by
      intro y hy
      rcases List.mem_map.mp hy with ⟨x, hx, rfl⟩
      rw [hmean, hv x hx]
      ring
    have hstd : stdR l = some 0 := by
      unfold stdR
      rw [if_neg (not_le.mpr h2)]
      congr 1
      rw [List.eq_replicate_of_mem hsq, List.sum_replicate, smul_zero, zero_div,
        Real.sqrt_zero]
    unfold zscoreR
    rw [hstd]
    rw [List.map_congr_left (fun x _ => (by unfold odiv; simp :
      odiv (x - meanR l) (some 0) = (fun _ => (none : Option ℝ)) x))]
    exact List.map_const' l none

/-- If any of the four CAI input columns is constant, the whole CAI output is
NaN at every time point: the degenerate z-score poisons the weighted sum, and
no fallback in the code intercepts it. -/
lemma cai_const_col_none (w : CAIWeights) (df : DfR)
    (rate_col credit_col unemp_col gdp_col : String)
    (r c u g : List ℝ) (n : ℕ)
    (hr : df.colGet rate_col = some r) (hc : df.colGet credit_col = some c)
    (hu2 : df.colGet unemp_col = some u) (hg : df.colGet gdp_col = some g)
    (hlr : r.length = n) (hlc : c.length = n) (hlu : u.length = n)
    (hlg : g.length = n)
    (hconst : (∃ v, ∀ x ∈ r, x = v) ∨ (∃ v, ∀ x ∈ c, x = v) ∨
      (∃ v, ∀ x ∈ u, x = v) ∨ (∃ v, ∀ x ∈ g, x = v)) :
    CreditAvailabilityIndex.calculate w df rate_col credit_col unemp_col gdp_col =
      Except.ok (List.replicate n none) := by
  unfold CreditAvailabilityIndex.calculate DfR.getCol
  simp only [hr, hc, hu2, hg]
  congr 1
  apply List.ext_getElem
  · simp [zscoreR, smulOpt, List.length_zipWith, hlr, hlc, hlu, hlg]
  · intro i h1 h2
    rw [List.getElem_replicate]
    rcases hconst with ⟨v, hv⟩ | ⟨v, hv⟩ | ⟨v, hv⟩ | ⟨v, hv⟩ <;>
      simp [zscore_const _ v hv, smulOpt, clipOpt, addOpt_none_left,
        addOpt_none_right]

/-! ### C3 — missing CAI column -/

/-- A real-valued frame with the gdp column absent (the other three present). -/
noncomputable def df_missing_gdp : DfR :=
  [("cash_rate", [1, 2]), ("credit_growth_housing", [1, 2]),
    ("unemployment_rate", [1, 2])]

/-- C3 counterexample.  The claim says a missing required column makes
`CreditAvailabilityIndex.calculate` fail with a dedicated `MissingFieldError`
distinct from a generic lookup failure.  The repository defines no such
error class: on a frame lacking `gdp_growth` the computation fails with the
generic pandas `KeyError` for that column, and with nothing else. -/
theorem C3_counterexample :
    CreditAvailabilityIndex.calculate defaultCAIWeights df_missing_gdp
      "cash_rate" "credit_growth_housing" "unemployment_rate" "gdp_growth" =
      Except.error (PyErr.keyError "gdp_growth") ∧
    ∀ s, CreditAvailabilityIndex.calculate defaultCAIWeights df_missing_gdp
      "cash_rate" "credit_growth_housing" "unemployment_rate" "gdp_growth" ≠
      Except.error (PyErr.missingFieldError s) := by
  have h : CreditAvailabilityIndex.calculate defaultCAIWeights df_missing_gdp
      "cash_rate" "credit_growth_housing" "unemployment_rate" "gdp_growth" =
      Except.error (PyErr.keyError "gdp_growth") := rfl
  refine ⟨h, fun s hs => ?_⟩
  rw [h] at hs
  simp at hs

/-- C3 (amended): whenever one of the four required CAI columns is absent,
`calculate` fails — with the generic `KeyError` naming a missing column, not
with a dedicated `MissingFieldError` — and never silently defaults. -/
theorem C3_missing_column_keyerror (w : CAIWeights) (df : DfR)
    (rate_col credit_col unemp_col gdp_col : String)
    (h : df.colGet rate_col = none ∨ df.colGet credit_col = none ∨
      df.colGet unemp_col = none ∨ df.colGet gdp_col = none) :
    ∃ m, CreditAvailabilityIndex.calculate w df rate_col credit_col unemp_col
        gdp_col = Except.error (PyErr.keyError m) ∧ df.colGet m = none := by
  rcases hr : df.colGet rate_col with _ | r
  · exact ⟨rate_col,
      by unfold CreditAvailabilityIndex.calculate DfR.getCol; simp [hr], hr⟩
  · rcases hc : df.colGet credit_col with _ | c
    · exact ⟨credit_col,
        by unfold CreditAvailabilityIndex.calculate DfR.getCol; simp [hr, hc], hc⟩
    · rcases hu2 : df.colGet unemp_col with _ | u
      · exact ⟨unemp_col,
          by unfold CreditAvailabilityIndex.calculate DfR.getCol
             simp [hr, hc, hu2], hu2⟩
      · rcases hg : df.colGet gdp_col with _ | g
        · exact ⟨gdp_col,
            by unfold CreditAvailabilityIndex.calculate DfR.getCol
               simp [hr, hc, hu2, hg], hg⟩
        · rcases h with h | h | h | h <;> simp_all

/-- Witness for C3: the amended statement at the concrete frame missing
`gdp_growth`. -/
theorem C3_missing_column_keyerror_witness :
    ∃ m, CreditAvailabilityIndex.calculate defaultCAIWeights df_missing_gdp
      "cash_rate" "credit_growth_housing" "unemployment_rate" "gdp_growth" =
      Except.error (PyErr.keyError m) ∧ df_missing_gdp.colGet m = none :=
  C3_missing_column_keyerror defaultCAIWeights df_missing_gdp
    "cash_rate" "credit_growth_housing" "unemployment_rate" "gdp_growth"
    (Or.inr (Or.inr (Or.inr rfl)))

/-! ### C6 — zero-variance CAI column -/

/-- A frame whose `cash_rate` column is constant and whose other three
required columns are present and non-constant. -/
noncomputable def df_const_rate : DfR :=
  [("cash_rate", [2, 2]), ("credit_growth_housing", [1, 2]),
    ("unemployment_rate", [3, 4]), ("gdp_growth", [5, 6])]

/-- C6 counterexample.  The claim says that with a zero-variance column the
CAI is still a finite value in [0, 100] at every time point, the degenerate
z-score being replaced by 0.  In fact there is no fallback: the division by
the zero standard deviation makes every entry NaN. -/
theorem C6_counterexample :
    ¬ ∃ l, CreditAvailabilityIndex.calculate defaultCAIWeights df_const_rate
        "cash_rate" "credit_growth_housing" "unemployment_rate" "gdp_growth" =
        Except.ok l ∧ ∀ o ∈ l, ∃ x : ℝ, o = some x ∧ 0 ≤ x ∧ x ≤ 100 := by
  have h := cai_const_col_none defaultCAIWeights df_const_rate
    "cash_rate" "credit_growth_housing" "unemployment_rate" "gdp_growth"
    [2, 2] [1, 2] [3, 4] [5, 6] 2 rfl rfl rfl rfl rfl rfl rfl rfl
    (Or.inl ⟨2, by simp⟩)
  rintro ⟨l, hl, hall⟩
  rw [h] at hl
  have hleq : List.replicate 2 (none : Option ℝ) = l := Except.ok.inj hl
  obtain ⟨x, hx, _⟩ := hall none (by rw [← hleq]; simp)
  exact Option.noConfusion hx

/-- C6 (amended): on every frame in which one of the four required CAI
columns is constant (all columns present, of a common length n), `calculate`
returns NaN (a non-finite value) at every one of the n time points — nothing
in the code replaces the degenerate z-score. -/
theorem C6_constant_column_nan (w : CAIWeights) (df : DfR)
    (rate_col credit_col unemp_col gdp_col : String)
    (r c u g : List ℝ) (n : ℕ)
    (hr : df.colGet rate_col = some r) (hc : df.colGet credit_col = some c)
    (hu2 : df.colGet unemp_col = some u) (hg : df.colGet gdp_col = some g)
    (hlr : r.length = n) (hlc : c.length = n) (hlu : u.length = n)
    (hlg : g.length = n)
    (hconst : (∃ v, ∀ x ∈ r, x = v) ∨ (∃ v, ∀ x ∈ c, x = v) ∨
      (∃ v, ∀ x ∈ u, x = v) ∨ (∃ v, ∀ x ∈ g, x = v)) :
    CreditAvailabilityIndex.calculate w df rate_col credit_col unemp_col
      gdp_col = Except.ok (List.replicate n none) :=
  cai_const_col_none w df rate_col credit_col unemp_col gdp_col r c u g n
    hr hc hu2 hg hlr hlc hlu hlg hconst

/-- Witness for C6: the amended statement at the concrete constant-rate
frame. -/
theorem C6_constant_column_nan_witness :
    CreditAvailabilityIndex.calculate defaultCAIWeights df_const_rate
      "cash_rate" "credit_growth_housing" "unemployment_rate" "gdp_growth" =
      Except.ok (List.replicate 2 none) :=
  C6_constant_column_nan defaultCAIWeights df_const_rate
    "cash_rate" "credit_growth_housing" "unemployment_rate" "gdp_growth"
    [2, 2] [1, 2] [3, 4] [5, 6] 2 rfl rfl rfl rfl rfl rfl rfl rfl
    (Or.inl ⟨2, by simp⟩)

/-! ### C1 — the Vasicek K formula -/

/-- C1.  The implementation of `calculate_rwa_simple` does not compute the
documented formula: lines 347-351 multiply `Φ⁻¹(PD)` by `sqrt(1-R)` and
`Φ⁻¹(0.999)` by `sqrt(R)`, while the claim — and the code's own comment at
line 340 — require `sqrt(1/(1-R))` and `sqrt(R/(1-R))`.  The two disagree for
every correlation in (0,1).  Instantiating the normal CDF and quantile with
the identity function (the embedding is uniform in them) and evaluating at
EAD = 1, PD = 1/2, LGD = 1, R = 9/25 — where all square roots are rational —
the two formulas return provably different numbers. -/
theorem C1_rwa_formula_divergence :
    calculate_rwa_simple id id 1 (1/2) 1 (9/25) ≠
      rwa_documented id id 1 (1/2) 1 (9/25) := by
  have hclip : clipR (1/2) (1/10000) (9999/10000) = 1/2 := by
    unfold clipR
    norm_num
  have h1 : Real.sqrt (9/25 : ℝ) = 3/5 := by
    rw [show (9/25 : ℝ) = (3/5)^2 by norm_num]
    exact Real.sqrt_sq (by norm_num)
  have h2 : Real.sqrt (1 - 9/25 : ℝ) = 4/5 := by
    rw [show (1 - 9/25 : ℝ) = (4/5)^2 by norm_num]
    exact Real.sqrt_sq (by norm_num)
  have h3 : Real.sqrt (1/(1 - 9/25) : ℝ) = 5/4 := by
    rw [show (1/(1 - 9/25) : ℝ) = (5/4)^2 by norm_num]
    exact Real.sqrt_sq (by norm_num)
  have h4 : Real.sqrt ((9/25)/(1 - 9/25) : ℝ) = 3/4 := by
    rw [show ((9/25)/(1 - 9/25) : ℝ) = (3/4)^2 by norm_num]
    exact Real.sqrt_sq (by norm_num)
  have hlog : Real.log (1/2 : ℝ) = -Real.log 2 := by
    rw [one_div, Real.log_inv]
  have hl2a : Real.log 2 < 0.6931471808 := Real.log_two_lt_d9
  have hl2b : (0:ℝ) < Real.log 2 := Real.log_pos (by norm_num)
  have hD : (0:ℝ) <
      1 - 3/2 * ((11852/100000 - 5478/100000 * -Real.log 2)^2) := by
    nlinarith [hl2a, hl2b]
  simp only [calculate_rwa_simple, rwa_documented, id_eq, hclip, h1, h2, h3,
    h4, hlog]
  apply ne_of_lt
  have hinv : (0:ℝ) <
      (1 - 3/2 * ((11852/100000 - 5478/100000 * -Real.log 2)^2))⁻¹ :=
    inv_pos.mpr hD
  ring_nf
  ring_nf at hinv
  linarith [hinv]
